import Mathlib

/-!
Verification of the model lifecycle and background-training coordination
subsystem of the YOLO-World detection backend.

The definitions below are a shallow embedding of the Python sources:
* `src/backend/src/yolo/object_detection.py` (class `YoloDetector`),
* `src/backend/src/model_monitor.py` (class `ModelFileHandler`),
* `src/backend/src/main.py` (training coordination, class-management and
  labeling endpoints).

The external inference engine (`ultralytics.YOLOWorld`) is modelled as an
oracle (`Engine`) giving the outcome of each `predict` call, keyed by image,
confidence, device and model handle, and of each model construction
(`loadModel`, `none` meaning the constructor raised, e.g. on a nonexistent
path).  Filesystem contents are passed in explicitly.  Exceptions are
modelled with `Except`/`Option`; caught-and-logged exceptions disappear into
the normal return value just as they do in the Python handlers.
-/

namespace Spec2Proof

/-! ## Detector state (`YoloDetector` fields) -/

/-- The mutable fields of a `YoloDetector` instance:
`self.device`, `self.model` (as an opaque engine handle id),
`self.model_path`, `self.current_classes` (a Python `set`),
together with the class list last applied to the engine via
`self.model.set_classes` and the persisted vocabulary file content. -/
structure DetectorState where
  device : String
  modelHandle : Nat
  model_path : String
  current_classes : Finset String
  engine_classes : Finset String
  persisted_vocab : Finset String
deriving DecidableEq

/-- Outcome of one engine `predict` call: a detection result id, or a raised
exception carrying its message. -/
inductive EngineOutcome where
  | ok (result : Nat)
  | err (msg : String)
deriving DecidableEq

/-- The external inference engine, as an oracle.  `predictCall` takes the
image path, confidence, device string and model handle; `loadModel` is
`YOLOWorld(path)`, returning a fresh handle or `none` when construction
raises. -/
structure Engine where
  predictCall : String → ℚ → String → Nat → EngineOutcome
  loadModel : String → Option Nat

/-- `pat` occurs as a contiguous run inside `l`. -/
def listContainsSub (pat : List Char) : List Char → Bool
  | [] => pat.isEmpty
  | c :: cs => pat.isPrefixOf (c :: cs) || listContainsSub pat cs

/-- Substring test used to embed Python's `"pat" in s`. -/
def strContains (s pat : String) : Bool :=
  listContainsSub pat.toList s.toList

/-- Python's `str.lower()`, character by character. -/
def pyLower (s : String) : String :=
  String.mk (s.toList.map Char.toLower)

/-- Python's `str.strip()`: drop whitespace from both ends. -/
def pyStrip (s : String) : String :=
  String.mk
    (((s.toList.dropWhile Char.isWhitespace).reverse.dropWhile
        Char.isWhitespace).reverse)

/-- Python's `str.startswith(pre)`. -/
def pyStartsWith (s pre : String) : Bool :=
  pre.toList.isPrefixOf s.toList

/-- `object_detection.py` lines 116-119: classification of an exception
message (already lowercased) as a CUDA compatibility error. -/
def is_cuda_error (error_msg : String) : Bool :=
  strContains error_msg "cuda" &&
    (strContains error_msg "kernel" || strContains error_msg "device" ||
     strContains error_msg "capability" || strContains error_msg "no kernel image")

/-- `object_detection.py` line 122: the guard deciding whether a failed
`predict` is retried on CPU (`self.device != "cpu" and (is_cuda_error or
"cuda" in error_msg)`), with `error_msg = str(e).lower()`. -/
def cuda_retry_applies (device msg : String) : Bool :=
  device != "cpu" && (is_cuda_error (pyLower msg) || strContains (pyLower msg) "cuda")

/-- `YoloDetector._update_model_classes`: calls `set_classes` on the engine
only when `self.current_classes` is non-empty (when empty it only logs). -/
def _update_model_classes (s : DetectorState) : DetectorState :=
  if s.current_classes = ∅ then s
  else { s with engine_classes := s.current_classes }

/-- `YoloDetector.add_classes`: inserts every element of `new_classes` into
`self.current_classes` (no trimming, no filtering), then re-applies the
classes to the engine and rewrites the vocabulary file. -/
def add_classes (s : DetectorState) (new_classes : List String) : DetectorState :=
  let s1 := { s with current_classes := s.current_classes ∪ new_classes.toFinset }
  let s2 := _update_model_classes s1
  { s2 with persisted_vocab := s2.current_classes }

/-- `YoloDetector.get_current_classes` returns `list(self.current_classes)`;
the iteration order of a Python set is unspecified, so it is modelled at the
set level. -/
def get_current_classes (s : DetectorState) : Finset String :=
  s.current_classes

/-- Result of `YoloDetector.predict_image`: the `None` early return when no
classes are configured, a detection result, or a propagated exception. -/
inductive PredictResult where
  | noClassesConfigured
  | detections (r : Nat)
  | failure (msg : String)
deriving DecidableEq

/-- A `predict_image` call's result, the detector state afterwards, and how
many engine `predict` calls were issued. -/
structure PredictOutcome where
  result : PredictResult
  state : DetectorState
  engineCalls : Nat
deriving DecidableEq

/-- `YoloDetector.predict_image` (`object_detection.py` lines 104-156).
Returns `None` without touching the engine when `current_classes` is empty.
Otherwise calls the engine; on an exception whose message matches the CUDA
retry guard while the device is not CPU, it sets `self.device = "cpu"`
*before* retrying once on CPU; if that retry also raises it reloads
`YOLOWorld(self.model_path)`, re-applies classes, retries once more, and on
failure re-raises the CPU retry's exception (`raise cpu_error`).  Any other
exception is re-raised unchanged. -/
def predict_image (e : Engine) (s : DetectorState) (image_path : String)
    (conf_threshold : ℚ) : PredictOutcome :=
  if s.current_classes = ∅ then ⟨.noClassesConfigured, s, 0⟩
  else
    match e.predictCall image_path conf_threshold s.device s.modelHandle with
    | .ok r => ⟨.detections r, s, 1⟩
    | .err msg =>
      if cuda_retry_applies s.device msg then
        let s1 := { s with device := "cpu" }
        match e.predictCall image_path conf_threshold "cpu" s.modelHandle with
        | .ok r => ⟨.detections r, s1, 2⟩
        | .err cpu_error_msg =>
          match e.loadModel s.model_path with
          | none => ⟨.failure cpu_error_msg, s1, 2⟩
          | some h =>
            let s2 := _update_model_classes { s1 with modelHandle := h }
            match e.predictCall image_path conf_threshold "cpu" h with
            | .ok r => ⟨.detections r, s2, 3⟩
            | .err _ => ⟨.failure cpu_error_msg, s2, 3⟩
      else ⟨.failure msg, s, 1⟩

/-- `YoloDetector.load_trained_model` (`object_detection.py` lines 282-308).
First corrects the device (CPU if CUDA is claimed but unusable), then
constructs `YOLOWorld(model_path)`; only on success does it assign
`self.model` and `self.model_path` and re-apply classes.  The `Bool` is
`true` on success; on failure the exception propagates and the handle and
source path are untouched. -/
def load_trained_model (e : Engine) (cuda_usable : Bool) (s : DetectorState)
    (model_path : String) : DetectorState × Bool :=
  let s1 := if pyStartsWith s.device "cuda" && !cuda_usable
            then { s with device := "cpu" } else s
  match e.loadModel model_path with
  | none => (s1, false)
  | some h =>
      let s2 := { s1 with modelHandle := h, model_path := model_path }
      let s3 := if s2.current_classes = ∅ then s2 else _update_model_classes s2
      (s3, true)

/-! ## HTTP endpoints touching the vocabulary (`main.py`) -/

/-- `main.py` `add_detection_classes` endpoint: rejects an empty request,
computes `valid_classes = [cls.strip() for cls in request.classes if
cls.strip()]`, rejects if that is empty, otherwise calls
`yolo.add_classes(valid_classes)`.  The `Option Nat` is the HTTP error
status, `none` on success. -/
def add_detection_classes (s : DetectorState) (classes : List String) :
    DetectorState × Option Nat :=
  if classes = [] then (s, some 400)
  else
    let valid_classes := (classes.filter (fun cls => pyStrip cls != "")).map pyStrip
    if valid_classes = [] then (s, some 400)
    else (add_classes s valid_classes, none)

/-- `main.py` `clear_detection_classes` endpoint: `yolo.current_classes.clear()`
then `_update_model_classes()` (a no-op on the engine since the set is empty)
and `_save_custom_vocab()`. -/
def clear_detection_classes (s : DetectorState) : DetectorState :=
  let s1 := { s with current_classes := ∅ }
  let s2 := _update_model_classes s1
  { s2 with persisted_vocab := s2.current_classes }

/-- The class mutation performed by the `submit_labeling_data` endpoint
(`main.py` lines 1440-1448): `unique_classes = list(set(box labels))` and
`yolo.add_classes(unique_classes)`, with no trimming or filtering. -/
def submit_labeling_classes (s : DetectorState) (box_labels : List String) :
    DetectorState :=
  add_classes s box_labels.dedup

/-- A detector state as built by `YoloDetector()` with no persisted
vocabulary: CUDA device selected, default weights, empty class set. -/
def initState : DetectorState :=
  { device := "cuda:0", modelHandle := 0, model_path := "./yolov8s-world.pt",
    current_classes := ∅, engine_classes := ∅, persisted_vocab := ∅ }

/-! ## The method surface of `YoloDetector`

Python resolves `yolo.reload_model(...)` by attribute lookup; when the class
defines no such attribute the call raises `AttributeError`.  The complete
list of methods defined by `class YoloDetector` in
`object_detection.py` (lines 10-433) is embedded literally. -/

/-- Every method defined in `class YoloDetector`. -/
def YoloDetector.methodNames : List String :=
  ["__init__", "_resolve_device", "_is_cuda_usable", "_load_custom_vocab",
   "_save_custom_vocab", "_update_model_classes", "add_classes",
   "get_current_classes", "predict_image", "fine_tune_model",
   "load_trained_model", "get_model_info", "backup_current_model",
   "validate_model_performance", "get_available_models"]

/-- Python attribute dispatch for `yolo.reload_model(...)`: succeeds exactly
when the class defines the attribute, otherwise raises `AttributeError`. -/
def yolo_reload_model_call : Except String Unit :=
  if YoloDetector.methodNames.contains "reload_model" then Except.ok ()
  else Except.error "AttributeError: reload_model"

/-! ## The model file watcher (`model_monitor.py`, `ModelFileHandler`) -/

/-- A filesystem modification event together with the watched file's
modification time as observed by `file_path.stat().st_mtime`. -/
structure WatchEvent where
  is_directory : Bool
  src_path : String
  mtime : Nat
deriving DecidableEq

/-- The handler's state: the watch set (`self.model_paths`) and the
`self.last_modified` dictionary. -/
structure HandlerState where
  model_paths : List String
  last_modified : List (String × Nat)
deriving DecidableEq

/-- `self.last_modified.get(str(file_path), 0)`. -/
def lookupMtime (m : List (String × Nat)) (p : String) : Nat :=
  match m.find? (fun kv => kv.1 == p) with
  | some kv => kv.2
  | none => 0

/-- `self.last_modified[str(file_path)] = t`. -/
def setMtime (m : List (String × Nat)) (p : String) (t : Nat) : List (String × Nat) :=
  if m.any (fun kv => kv.1 == p) then
    m.map (fun kv => if kv.1 == p then (p, t) else kv)
  else m ++ [(p, t)]

/-- What `on_modified` did: nothing, or a reload dispatched after the settle
delay (`time.sleep(2)`) that then succeeded or raised (raised exceptions are
caught and logged inside the handler). -/
inductive WatchAction where
  | skipped
  | reloaded (path : String) (settleDelay : Nat)
  | reloadFailed (path : String) (settleDelay : Nat)
deriving DecidableEq

/-- `ModelFileHandler.on_modified` (`model_monitor.py` lines 35-72),
parametrized by whether the `reload_model` call succeeds.  Directory events
and unwatched paths are ignored; when the observed mtime is newer than the
recorded one the handler sleeps 2 seconds and calls
`self.yolo_detector.reload_model(...)`; `self.last_modified` is assigned
inside the same `try` block, after the reload call, so it is reached only
when the reload did not raise. -/
def on_modified (st : HandlerState) (ev : WatchEvent) (reloadSucceeds : Bool) :
    HandlerState × WatchAction :=
  if ev.is_directory then (st, .skipped)
  else if !(st.model_paths.contains ev.src_path) then (st, .skipped)
  else
    let last_mtime := lookupMtime st.last_modified ev.src_path
    if ev.mtime > last_mtime then
      if reloadSucceeds then
        ({ st with last_modified := setMtime st.last_modified ev.src_path ev.mtime },
         .reloaded ev.src_path 2)
      else (st, .reloadFailed ev.src_path 2)
    else (st, .skipped)

/-- `on_modified` as it executes in this program, where the reload call is
`yolo.reload_model(...)` resolved by attribute lookup on `YoloDetector`. -/
def on_modified_actual (st : HandlerState) (ev : WatchEvent) :
    HandlerState × WatchAction :=
  on_modified st ev (match yolo_reload_model_call with
                     | .ok _ => true
                     | .error _ => false)

/-- Result of an HTTP endpoint: a success body or an `HTTPException`. -/
inductive EndpointResult where
  | ok (message : String)
  | httpError (status_code : Nat) (detail : String)
deriving DecidableEq

/-- `main.py` `reload_model` endpoint (lines 1251-1271): calls
`yolo.reload_model(...)` (with or without a path) and converts any raised
exception into an HTTP 500. -/
def reload_model_endpoint (model_path : Option String) : EndpointResult :=
  match yolo_reload_model_call with
  | .ok _ =>
    match model_path with
    | some p => .ok ("Model reloaded successfully from new path: " ++ p)
    | none => .ok "Current model reloaded successfully"
  | .error e => .httpError 500 ("Model reload failed: " ++ e)

/-! ## Training coordination (`main.py`) -/

/-- The global `training_status` dictionary. -/
structure TrainingStatus where
  is_training : Bool
  current_run : Option String
  progress : String
deriving DecidableEq

/-- The training-data directory contents consulted by `start_model_training`
and `create_training_config`: existence of `images/` and `labels/`, the
image files (`*.jpg` + `*.png`), the label files (`*.txt`), the
`classes.txt` file with its raw lines, and the total label count. -/
structure TrainingDataFS where
  images_dir_exists : Bool
  labels_dir_exists : Bool
  image_files : List String
  label_files : List String
  classes_file_exists : Bool
  classes_lines : List String
  total_labels : Nat
deriving DecidableEq

/-- The `data.yaml` dataset configuration artifact. -/
structure DataConfig where
  train : String
  valSplit : String
  nc : Nat
  names : List String
deriving DecidableEq

/-- `main.py` `create_training_config`: returns `None` when `classes.txt`
does not exist or holds no non-blank line (writing nothing in that case);
otherwise writes and returns `data.yaml` built from the stripped class
lines. -/
def create_training_config (fs : TrainingDataFS) : Option DataConfig :=
  if !fs.classes_file_exists then none
  else
    let classes := (fs.classes_lines.filter (fun line => pyStrip line != "")).map pyStrip
    if classes = [] then none
    else some { train := "images", valSplit := "images",
                nc := classes.length, names := classes }

/-- Result of the `start_model_training` endpoint. -/
inductive StartResult where
  | rejected (status_code : Nat) (detail : String)
  | accepted (message : String)
deriving DecidableEq

/-- Outcome of `start_model_training`: the HTTP result, the
`training_status` afterwards, whether a `data.yaml` artifact was written,
and whether a background job was submitted to the executor. -/
structure StartOutcome where
  result : StartResult
  status : TrainingStatus
  configCreated : Bool
  submitted : Bool
deriving DecidableEq

/-- `main.py` `start_model_training` (lines 901-960): rejects while
`training_status["is_training"]`, rejects `epochs` outside `1..500`, rejects
when `images/` or `labels/` is missing or holds zero files, then creates the
dataset configuration; on acceptance records `current_run` and submits the
background job.  `run_name` stands for the timestamp-derived run id. -/
def start_model_training (st : TrainingStatus) (fs : TrainingDataFS)
    (epochs : Int) (run_name : String) : StartOutcome :=
  if st.is_training then
    ⟨.rejected 400 "Training is already in progress. Please wait for it to complete.",
     st, false, false⟩
  else if epochs ≤ 0 ∨ epochs > 500 then
    ⟨.rejected 400 "Epochs must be between 1 and 500", st, false, false⟩
  else if !fs.images_dir_exists || !fs.labels_dir_exists then
    ⟨.rejected 400 "No training data available. Please submit some labeled data first.",
     st, false, false⟩
  else if fs.image_files.length = 0 ∨ fs.label_files.length = 0 then
    ⟨.rejected 400 "Insufficient training data. Please add more labeled images.",
     st, false, false⟩
  else
    match create_training_config fs with
    | none =>
      ⟨.rejected 400 "Could not create training configuration. Please check your labeling data.",
       st, false, false⟩
    | some _ =>
      ⟨.accepted ("Training started successfully! Training on "
          ++ toString fs.image_files.length ++ " images with "
          ++ toString fs.total_labels ++ " labels for "
          ++ toString epochs
          ++ " epochs. Training is running in the background."),
       { st with current_run := some run_name }, true, true⟩

/-- A run directory under `runs/detect`: its name, its modification time and
whether `weights/best.pt` exists inside it. -/
structure TrainRunDir where
  name : String
  mtime : Nat
  hasBestWeights : Bool
deriving DecidableEq

/-- The `runs/detect` directory contents. -/
structure RunsFS where
  runs_dir_exists : Bool
  dirs : List TrainRunDir
deriving DecidableEq

/-- `max(train_dirs, key=lambda x: x.stat().st_mtime)`: Python's `max`
returns the first element among those with maximal key. -/
def latestRun : List TrainRunDir → Option TrainRunDir
  | [] => none
  | d :: rest =>
      some (rest.foldl (fun acc x => if x.mtime > acc.mtime then x else acc) d)

/-- `main.py` `run_training_in_background` (lines 842-880), parametrized by
the outcome of `yolo.fine_tune_model` and of the `yolo.load_trained_model`
swap.  The function catches every exception and always returns a plain
status record (failures are visible only through `training_status`, never
propagated to the caller of the start endpoint); the `finally` block resets
`is_training`.  The `Option String` is the path passed to
`load_trained_model` when a swap was attempted. -/
def run_training_in_background (st : TrainingStatus)
    (trainResult : Except String Unit) (runs : RunsFS)
    (swapResult : Except String Unit) : TrainingStatus × Option String :=
  match trainResult with
  | .error e =>
      ({ is_training := false, current_run := st.current_run,
         progress := "Training failed: " ++ e }, none)
  | .ok _ =>
      let bestPath :=
        if runs.runs_dir_exists then
          match latestRun (runs.dirs.filter (fun d => pyStartsWith d.name "train")) with
          | some latest =>
              if latest.hasBestWeights
              then some (latest.name ++ "/weights/best.pt") else none
          | none => none
        else none
      match bestPath with
      | none =>
          ({ is_training := false, current_run := st.current_run,
             progress := "Training completed successfully!" }, none)
      | some p =>
          match swapResult with
          | .ok _ =>
              ({ is_training := false, current_run := st.current_run,
                 progress := "Training completed successfully!" }, some p)
          | .error e =>
              ({ is_training := false, current_run := st.current_run,
                 progress := "Training failed: " ++ e }, some p)

/-! ## Labeling persistence (`main.py`) -/

/-- The numeric core of `save_labeling_data` (`main.py` lines 723-762): one
bounding box is converted to the normalized YOLO record
`(center_x, center_y, width, height)`; each component is written with
`f"{v:.6f}"`, modelled by rounding to six decimal places. -/
def round6 (q : ℚ) : ℚ :=
  (round (q * 1000000) : ℤ) / 1000000

/-- The normalized YOLO record written for a box `(x1, y1, x2, y2)` on an
image of size `image_width × image_height`. -/
def save_label_record (x1 y1 x2 y2 image_width image_height : ℚ) :
    ℚ × ℚ × ℚ × ℚ :=
  let center_x := (x1 + x2) / 2 / image_width
  let center_y := (y1 + y2) / 2 / image_height
  let width := |x2 - x1| / image_width
  let height := |y2 - y1| / image_height
  (round6 center_x, round6 center_y, round6 width, round6 height)

/-- `main.py` `get_or_create_class_id` (lines 764-785): looks the class name
up in the persisted `classes.txt` list; if present returns its index,
otherwise appends it and returns the new index.  The returned list is the
persisted class list afterwards. -/
def get_or_create_class_id (classes : List String) (class_name : String) :
    List String × Nat :=
  if class_name ∈ classes then (classes, classes.indexOf class_name)
  else (classes ++ [class_name], classes.length)

/-! ## Concrete fixtures used by counterexamples and witnesses -/

/-- An engine whose CUDA calls fail with a kernel-compatibility error, whose
CPU calls fail with a plain runtime error, and whose reload yields a fresh
handle. -/
def badEngine : Engine :=
  { predictCall := fun _ _ device handle =>
      if device = "cpu" then .err ("cpu failure " ++ toString handle)
      else .err "CUDA error: no kernel image is available for execution on the device",
    loadModel := fun _ => some 1 }

/-- An engine whose predictions succeed but whose model constructor raises
(e.g. the weights path does not exist). -/
def okPredictEngine : Engine :=
  { predictCall := fun _ _ _ _ => .ok 7,
    loadModel := fun _ => none }

/-- A detector with one configured class, on the CUDA device. -/
def cexState : DetectorState :=
  { initState with current_classes := {"mouse"} }

/-- A watcher handler state knowing one model file last modified at time 5. -/
def watchState0 : HandlerState :=
  { model_paths := ["./yolov8s-world.pt"],
    last_modified := [("./yolov8s-world.pt", 5)] }

/-- A modification event for the watched file, newer than the recorded time. -/
def watchEvent0 : WatchEvent :=
  { is_directory := false, src_path := "./yolov8s-world.pt", mtime := 10 }

/-- An idle training status. -/
def idleStatus : TrainingStatus :=
  { is_training := false, current_run := none, progress := "Not started" }

/-- A running training status. -/
def runningStatus : TrainingStatus :=
  { is_training := true, current_run := some "train_x", progress := "Starting training..." }

/-- A training-data directory with one labeled image and one class. -/
def fullFs : TrainingDataFS :=
  { images_dir_exists := true, labels_dir_exists := true,
    image_files := ["a.jpg"], label_files := ["a.txt"],
    classes_file_exists := true, classes_lines := ["person"], total_labels := 1 }

/-- A training-data directory whose `images/` and `labels/` exist but hold
no files. -/
def emptyFs : TrainingDataFS :=
  { images_dir_exists := true, labels_dir_exists := true,
    image_files := [], label_files := [],
    classes_file_exists := true, classes_lines := ["person"], total_labels := 0 }

/-- A runs root whose newest train directory has no `weights/best.pt`. -/
def runsNoBest : RunsFS :=
  { runs_dir_exists := true,
    dirs := [⟨"train", 3, true⟩, ⟨"train2", 7, false⟩] }

/-- A runs root whose newest train directory has a `weights/best.pt`. -/
def runsWithBest : RunsFS :=
  { runs_dir_exists := true,
    dirs := [⟨"train", 3, false⟩, ⟨"train2", 7, true⟩] }

/-! ## Helper lemmas -/

/-- Effect of `add_classes` on the class set. -/
theorem add_classes_current (s : DetectorState) (cs : List String) :
    (add_classes s cs).current_classes = s.current_classes ∪ cs.toFinset := by
  unfold add_classes _update_model_classes
  dsimp only
  split <;> rfl

/-- A sequence of `add_classes` calls, folded over the detector state. -/
def add_classes_seq (s : DetectorState) (calls : List (List String)) :
    DetectorState :=
  calls.foldl add_classes s

theorem add_classes_seq_current (calls : List (List String)) (s : DetectorState) :
    (add_classes_seq s calls).current_classes
      = s.current_classes ∪ calls.flatten.toFinset := by
  induction calls generalizing s with
  | nil => simp [add_classes_seq]
  | cons cs rest ih =>
      simp only [add_classes_seq, List.foldl_cons, List.flatten_cons,
        List.toFinset_append]
      rw [show List.foldl add_classes (add_classes s cs) rest
            = add_classes_seq (add_classes s cs) rest from rfl, ih,
        add_classes_current, Finset.union_assoc]

/-! ## Claim C7 -/

/-- Claim C7: for every image and every confidence threshold, if the active
class vocabulary is empty (in particular immediately after `clearClasses`),
`predict` returns the `NoClassesConfigured` signal (`None`) and never
invokes the inference engine (zero engine calls, state untouched). -/
theorem predict_empty_vocabulary_no_engine (e : Engine) (s t : DetectorState)
    (img : String) (conf : ℚ) (h : s.current_classes = ∅) :
    predict_image e s img conf = ⟨.noClassesConfigured, s, 0⟩
    ∧ (clear_detection_classes t).current_classes = ∅ := by
  constructor
  · unfold predict_image
    rw [if_pos h]
  · rfl

/-- Witness for C7: the concrete empty-vocabulary detector state. -/
theorem predict_empty_vocabulary_no_engine_witness :
    initState.current_classes = ∅
    ∧ (predict_image okPredictEngine initState "img.jpg" (1/4)
         = ⟨.noClassesConfigured, initState, 0⟩
       ∧ (clear_detection_classes cexState).current_classes = ∅) :=
  ⟨rfl, predict_empty_vocabulary_no_engine okPredictEngine initState cexState
    "img.jpg" (1/4) rfl⟩

/-! ## Claim C2 -/

/-- Claim C2: `YoloDetector` defines no method named `reload_model`, yet the
watcher and the manual reload endpoint both invoke `yolo.reload_model`.
Consequently every watcher-triggered reload raises `AttributeError` (caught
and logged): the handler never completes a reload and never advances
`last_modified`, and every call to the manual reload endpoint fails with
HTTP 500. -/
theorem reload_model_missing_everywhere :
    "reload_model" ∉ YoloDetector.methodNames
    ∧ (∀ st ev, (on_modified_actual st ev).1 = st)
    ∧ (∀ st ev p d, (on_modified_actual st ev).2 ≠ WatchAction.reloaded p d)
    ∧ (∀ mp, reload_model_endpoint mp
        = .httpError 500 "Model reload failed: AttributeError: reload_model") := by
  have hfail : ∀ st ev, on_modified_actual st ev = on_modified st ev false :=
    fun st ev => rfl
  refine ⟨by decide, fun st ev => ?_, fun st ev p d => ?_, fun mp => rfl⟩
  · rw [hfail]
    simp only [on_modified, Bool.false_eq_true, if_false]
    split
    · rfl
    split
    · rfl
    split <;> rfl
  · rw [hfail]
    simp only [on_modified, Bool.false_eq_true, if_false]
    split
    · exact fun hc => WatchAction.noConfusion hc
    split
    · exact fun hc => WatchAction.noConfusion hc
    split <;> exact fun hc => WatchAction.noConfusion hc

/-! ## Claim C1 (corrected) -/

/-- Counterexample to claim C1 as stated: on a modification event whose
mtime (10) is newer than the recorded time (5), the handler dispatches the
reload after the 2-second settle delay, but when the reload fails the
recorded `last_modified` is NOT updated — it stays 5, while the claim says
it is updated regardless of the swap outcome. -/
theorem watcher_update_regardless_refuted :
    on_modified watchState0 watchEvent0 false
      = (watchState0, .reloadFailed "./yolov8s-world.pt" 2)
    ∧ lookupMtime (on_modified watchState0 watchEvent0 false).1.last_modified
        "./yolov8s-world.pt" = 5
    ∧ watchEvent0.mtime = 10 := by
  decide

/-- Amended claim C1: for every modification event on a watched model file
whose current modification time is newer than the recorded
`lastKnownModifiedTime`, the watcher waits the fixed settle delay (2 s) and
dispatches a model swap for that path; `lastKnownModifiedTime` is then
updated only when the swap succeeded — when the swap fails the recorded
time is left unchanged. -/
theorem watcher_updates_mtime_only_on_success (st : HandlerState)
    (ev : WatchEvent) (ok : Bool)
    (hdir : ev.is_directory = false)
    (hwatch : st.model_paths.contains ev.src_path = true)
    (hnew : lookupMtime st.last_modified ev.src_path < ev.mtime) :
    (ok = true → on_modified st ev ok
      = ({ st with last_modified := setMtime st.last_modified ev.src_path ev.mtime },
         .reloaded ev.src_path 2))
    ∧ (ok = false → on_modified st ev ok = (st, .reloadFailed ev.src_path 2)) := by
  unfold on_modified
  rw [hdir, hwatch]
  simp only [Bool.false_eq_true, if_false, Bool.not_true, if_pos hnew]
  constructor
  · intro hok; rw [hok]; rfl
  · intro hok; rw [hok]; rfl

/-- Witness for the amended claim C1: the concrete watcher fixture, in both
the succeeding and the failing swap case. -/
theorem watcher_updates_mtime_only_on_success_witness :
    (watchEvent0.is_directory = false
      ∧ watchState0.model_paths.contains watchEvent0.src_path = true
      ∧ lookupMtime watchState0.last_modified watchEvent0.src_path < watchEvent0.mtime)
    ∧ ((true = true → on_modified watchState0 watchEvent0 true
        = ({ watchState0 with
              last_modified := setMtime watchState0.last_modified watchEvent0.src_path
                watchEvent0.mtime },
           .reloaded watchEvent0.src_path 2))
      ∧ (true = false →
          on_modified watchState0 watchEvent0 true = (watchState0, .reloadFailed watchEvent0.src_path 2))) :=
  ⟨⟨by decide, by decide, by decide⟩,
   watcher_updates_mtime_only_on_success watchState0 watchEvent0 true
     (by decide) (by decide) (by decide)⟩

/-! ## Claim C9 (corrected) -/

/-- Counterexample to claim C9 as stated: submitting labeling data whose
single box is labeled with the whitespace-only string `"  "` puts `"  "`
into the vocabulary set (`add_classes` performs no trimming and no
filtering), so after this mutation the set holds a class that is empty
after trimming. -/
theorem vocabulary_trim_invariant_refuted :
    "  " ∈ (submit_labeling_classes initState ["  "]).current_classes
    ∧ pyStrip "  " = "" := by
  decide

/-- Amended claim C9: the trimming happens in the class-management HTTP
endpoint, not in `add_classes`: every class that the endpoint adds to the
vocabulary is the `strip` of some requested string and is non-empty
(strings that strip to empty are silently dropped).  `add_classes` itself
performs no trimming, and the labeling-submission path passes box labels
verbatim, so whitespace-only classes can enter the vocabulary through it. -/
theorem endpoint_added_classes_nonempty (s : DetectorState)
    (request : List String) (c : String)
    (hmem : c ∈ (add_detection_classes s request).1.current_classes)
    (hold : c ∉ s.current_classes) :
    c ≠ "" ∧ ∃ x ∈ request, c = pyStrip x := by
  unfold add_detection_classes at hmem
  by_cases h0 : request = []
  · rw [if_pos h0] at hmem
    exact absurd hmem hold
  · rw [if_neg h0] at hmem
    dsimp only at hmem
    by_cases h1 : (request.filter (fun cls => pyStrip cls != "")).map pyStrip = []
    · rw [if_pos h1] at hmem
      exact absurd hmem hold
    · rw [if_neg h1] at hmem
      dsimp only at hmem
      rw [add_classes_current] at hmem
      rcases Finset.mem_union.mp hmem with hc | hc
      · exact absurd hc hold
      · rcases List.mem_map.mp (List.mem_toFinset.mp hc) with ⟨x, hx, hxc⟩
        rcases List.mem_filter.mp hx with ⟨hxreq, hxne⟩
        refine ⟨?_, x, hxreq, hxc.symm⟩
        rw [← hxc]
        simpa using hxne

/-- Witness for the amended claim C9: the request `[" a "]` adds exactly the
stripped class `"a"`, which is non-empty. -/
theorem endpoint_added_classes_nonempty_witness :
    ("a" ∈ (add_detection_classes initState [" a "]).1.current_classes
      ∧ "a" ∉ initState.current_classes)
    ∧ ("a" ≠ "" ∧ ∃ x ∈ [" a "], "a" = pyStrip x) :=
  ⟨⟨by decide, by decide⟩,
   endpoint_added_classes_nonempty initState [" a "] "a" (by decide) (by decide)⟩

/-! ## Claim C8 -/

/-- Claim C8: starting from an empty vocabulary, for every sequence of
`addClasses` calls with non-empty, whitespace-trimmed class lists, the
resulting class set equals the union of all classes ever added (with no
duplicates, being a finite set), regardless of call order or repetition;
and `addClasses` is idempotent — re-adding an already-added list changes
nothing observable in the detector state. -/
theorem add_classes_union_idempotent (s : DetectorState)
    (calls : List (List String))
    (hstart : s.current_classes = ∅)
    (hvalid : ∀ cs ∈ calls, cs ≠ [] ∧ ∀ c ∈ cs, pyStrip c = c ∧ c ≠ "") :
    (add_classes_seq s calls).current_classes = calls.flatten.toFinset
    ∧ (∀ calls2, calls.flatten.Perm calls2.flatten →
        (add_classes_seq s calls2).current_classes
          = (add_classes_seq s calls).current_classes)
    ∧ (∀ t cs, add_classes (add_classes t cs) cs = add_classes t cs) := by
  refine ⟨?_, ?_, ?_⟩
  · rw [add_classes_seq_current, hstart, Finset.empty_union]
  · intro calls2 hperm
    rw [add_classes_seq_current, add_classes_seq_current, hstart,
      Finset.empty_union, Finset.empty_union,
      List.toFinset_eq_of_perm _ _ hperm]
  · intro t cs
    have hA : (t.current_classes ∪ cs.toFinset) ∪ cs.toFinset
        = t.current_classes ∪ cs.toFinset := by
      rw [Finset.union_assoc, Finset.union_self]
    by_cases h : t.current_classes ∪ cs.toFinset = ∅
    · obtain ⟨h1, h2⟩ := Finset.union_eq_empty.mp h
      simp [add_classes, _update_model_classes, h1, h2]
    · simp [add_classes, _update_model_classes, hA, h]

/-- Witness for C8: two overlapping valid calls merge into the union with
the duplicate collapsed, and re-adding is idempotent. -/
theorem add_classes_union_idempotent_witness :
    (initState.current_classes = ∅
      ∧ ∀ cs ∈ [["mouse", "cell"], ["cell"]], cs ≠ []
          ∧ ∀ c ∈ cs, pyStrip c = c ∧ c ≠ "")
    ∧ (add_classes_seq initState [["mouse", "cell"], ["cell"]]).current_classes
        = [["mouse", "cell"], ["cell"]].flatten.toFinset :=
  ⟨⟨by decide, by decide⟩,
   (add_classes_union_idempotent initState [["mouse", "cell"], ["cell"]]
     (by decide) (by decide)).1⟩

/-! ## Claim C3 (corrected) -/

/-- Counterexample to claim C3 as stated: with the CUDA device active, an
engine whose CUDA call fails with a kernel-compatibility error and whose
CPU retry also fails.  The whole call fails — so no retry succeeded — yet
`activeDevice` has been downgraded from `"cuda:0"` to `"cpu"`: the code
sets `self.device = "cpu"` *before* the retry, not only if it succeeds. -/
theorem device_downgrade_only_on_success_refuted :
    (predict_image badEngine cexState "img.jpg" (1/4)).result
      = .failure "cpu failure 0"
    ∧ (predict_image badEngine cexState "img.jpg" (1/4)).state.device = "cpu"
    ∧ cexState.device = "cuda:0" := by
  decide

/-- Amended claim C3: on an engine failure matching the CUDA retry guard
while the device is not CPU, the registry downgrades `activeDevice` to CPU
as soon as the fallback path is entered — before the retry and regardless
of its outcome — then retries exactly once on CPU; if that retry fails it
attempts exactly one full reload of the engine from `sourcePath` on CPU,
retries once more, and only then propagates the failure (the CPU retry's
error) to the caller. -/
theorem predict_cpu_fallback_behavior (e : Engine) (s : DetectorState)
    (img : String) (conf : ℚ) (msg : String)
    (hcls : ¬s.current_classes = ∅)
    (h1 : e.predictCall img conf s.device s.modelHandle = .err msg)
    (hcond : cuda_retry_applies s.device msg = true) :
    (predict_image e s img conf).state.device = "cpu"
    ∧ (∀ r, e.predictCall img conf "cpu" s.modelHandle = .ok r →
        predict_image e s img conf
          = ⟨.detections r, { s with device := "cpu" }, 2⟩)
    ∧ ∀ m2, e.predictCall img conf "cpu" s.modelHandle = .err m2 →
        (e.loadModel s.model_path = none →
          predict_image e s img conf
            = ⟨.failure m2, { s with device := "cpu" }, 2⟩)
        ∧ ∀ h2, e.loadModel s.model_path = some h2 →
            (∀ r, e.predictCall img conf "cpu" h2 = .ok r →
              (predict_image e s img conf).result = .detections r
              ∧ (predict_image e s img conf).engineCalls = 3)
            ∧ ∀ m3, e.predictCall img conf "cpu" h2 = .err m3 →
              (predict_image e s img conf).result = .failure m2
              ∧ (predict_image e s img conf).engineCalls = 3 := by
  have hbody : predict_image e s img conf
      = match e.predictCall img conf "cpu" s.modelHandle with
        | .ok r => ⟨.detections r, { s with device := "cpu" }, 2⟩
        | .err cpu_error_msg =>
          match e.loadModel s.model_path with
          | none => ⟨.failure cpu_error_msg, { s with device := "cpu" }, 2⟩
          | some h =>
            let s2 := _update_model_classes
              { s with device := "cpu", modelHandle := h }
            match e.predictCall img conf "cpu" h with
            | .ok r => ⟨.detections r, s2, 3⟩
            | .err _ => ⟨.failure cpu_error_msg, s2, 3⟩ := by
    unfold predict_image
    rw [if_neg hcls, h1]
    dsimp only
    rw [if_pos hcond]
  refine ⟨?_, ?_, ?_⟩
  · rw [hbody]
    rcases e.predictCall img conf "cpu" s.modelHandle with r | m2
    · rfl
    rcases e.loadModel s.model_path with _ | h2
    · rfl
    dsimp only
    rcases e.predictCall img conf "cpu" h2 with r | m3 <;>
      · dsimp only
        unfold _update_model_classes
        split <;> rfl
  · intro r hr
    rw [hbody, hr]
  · intro m2 hm2
    rw [hbody, hm2]
    dsimp only
    constructor
    · intro hload
      rw [hload]
    · intro h2 hload
      rw [hload]
      dsimp only
      constructor
      · intro r hr
        rw [hr]
        exact ⟨rfl, rfl⟩
      · intro m3 hm3
        rw [hm3]
        exact ⟨rfl, rfl⟩

/-- Witness for the amended claim C3: the concrete failing engine, where
the CUDA call fails, the CPU retry fails with `"cpu failure 0"`, the reload
succeeds with handle 1, and the post-reload retry fails with
`"cpu failure 1"`. -/
theorem predict_cpu_fallback_behavior_witness :
    (¬cexState.current_classes = ∅
      ∧ badEngine.predictCall "img.jpg" (1/4) cexState.device cexState.modelHandle
          = .err "CUDA error: no kernel image is available for execution on the device"
      ∧ cuda_retry_applies cexState.device
          "CUDA error: no kernel image is available for execution on the device" = true)
    ∧ (predict_image badEngine cexState "img.jpg" (1/4)).state.device = "cpu" :=
  ⟨⟨by decide, by decide, by decide⟩,
   (predict_cpu_fallback_behavior badEngine cexState "img.jpg" (1/4)
     "CUDA error: no kernel image is available for execution on the device"
     (by decide) (by decide) (by decide)).1⟩

/-! ## Claim C4 -/

/-- Claim C4: when a swap target path does not exist or the engine cannot
construct a model from it, the swap fails and the previously active handle
and its `sourcePath` (and class set) remain unchanged, so a subsequent
`predict` call still succeeds using the old model. -/
theorem swap_failure_preserves_active_model (e : Engine) (cuda_usable : Bool)
    (s : DetectorState) (path : String)
    (hfail : e.loadModel path = none) :
    (load_trained_model e cuda_usable s path).2 = false
    ∧ (load_trained_model e cuda_usable s path).1.modelHandle = s.modelHandle
    ∧ (load_trained_model e cuda_usable s path).1.model_path = s.model_path
    ∧ (load_trained_model e cuda_usable s path).1.current_classes
        = s.current_classes
    ∧ ∀ img conf r, ¬s.current_classes = ∅ →
        e.predictCall img conf (load_trained_model e cuda_usable s path).1.device
          s.modelHandle = .ok r →
        (predict_image e (load_trained_model e cuda_usable s path).1 img conf).result
          = .detections r := by
  have hout : load_trained_model e cuda_usable s path
      = (if pyStartsWith s.device "cuda" && !cuda_usable
         then { s with device := "cpu" } else s, false) := by
    unfold load_trained_model
    rw [hfail]
  rw [hout]
  by_cases hdev : (pyStartsWith s.device "cuda" && !cuda_usable) = true
  · rw [if_pos hdev]
    refine ⟨rfl, rfl, rfl, rfl, fun img conf r hne hok => ?_⟩
    unfold predict_image
    rw [if_neg hne, hok]
  · rw [if_neg hdev]
    refine ⟨rfl, rfl, rfl, rfl, fun img conf r hne hok => ?_⟩
    unfold predict_image
    rw [if_neg hne, hok]

/-- Witness for C4: a swap of `cexState` to a missing path fails while a
subsequent predict against the unchanged old handle still succeeds. -/
theorem swap_failure_preserves_active_model_witness :
    okPredictEngine.loadModel "missing.pt" = none
    ∧ (load_trained_model okPredictEngine true cexState "missing.pt").2 = false
    ∧ (load_trained_model okPredictEngine true cexState "missing.pt").1.model_path
        = cexState.model_path
    ∧ (predict_image okPredictEngine
        (load_trained_model okPredictEngine true cexState "missing.pt").1
        "img.jpg" (1/4)).result = .detections 7 :=
  ⟨rfl,
   (swap_failure_preserves_active_model okPredictEngine true cexState
     "missing.pt" rfl).1,
   (swap_failure_preserves_active_model okPredictEngine true cexState
     "missing.pt" rfl).2.2.1,
   (swap_failure_preserves_active_model okPredictEngine true cexState
     "missing.pt" rfl).2.2.2.2 "img.jpg" (1/4) 7 (by decide) rfl⟩

/-! ## Claim C5 -/

/-- Claim C5: `startJob` rejects with `JobAlreadyRunning` while a job is
Running, without altering the running job's status record; rejects with
`InvalidEpochs` when `epochs` is not in `1..500`; rejects with
`NoTrainingData` when the dataset directory has zero images or zero label
files, creating no dataset configuration artifact; and only an accepted
request mutates job state (every non-accepted outcome leaves the status
unchanged, writes no config and submits nothing). -/
theorem start_job_rejection_semantics (st : TrainingStatus)
    (fs : TrainingDataFS) (epochs : Int) (run_name : String) :
    (st.is_training = true →
      start_model_training st fs epochs run_name
        = ⟨.rejected 400 "Training is already in progress. Please wait for it to complete.",
           st, false, false⟩)
    ∧ (st.is_training = false → (epochs ≤ 0 ∨ epochs > 500) →
      start_model_training st fs epochs run_name
        = ⟨.rejected 400 "Epochs must be between 1 and 500", st, false, false⟩)
    ∧ (st.is_training = false → 1 ≤ epochs → epochs ≤ 500 →
       fs.images_dir_exists = true → fs.labels_dir_exists = true →
       (fs.image_files.length = 0 ∨ fs.label_files.length = 0) →
      start_model_training st fs epochs run_name
        = ⟨.rejected 400 "Insufficient training data. Please add more labeled images.",
           st, false, false⟩)
    ∧ ((∀ m, (start_model_training st fs epochs run_name).result ≠ .accepted m) →
      (start_model_training st fs epochs run_name).status = st
      ∧ (start_model_training st fs epochs run_name).configCreated = false
      ∧ (start_model_training st fs epochs run_name).submitted = false) := by
  refine ⟨?_, ?_, ?_, ?_⟩
  · intro h
    unfold start_model_training
    rw [if_pos h]
  · intro h hep
    unfold start_model_training
    rw [if_neg (by rw [h]; exact Bool.false_ne_true), if_pos hep]
  · intro h h1 h2 hi hl hz
    unfold start_model_training
    rw [if_neg (by rw [h]; exact Bool.false_ne_true),
      if_neg (by push_neg; exact ⟨by omega, by omega⟩),
      if_neg (by rw [hi, hl]; simp), if_pos hz]
  · intro hna
    revert hna
    unfold start_model_training
    split
    · exact fun _ => ⟨rfl, rfl, rfl⟩
    split
    · exact fun _ => ⟨rfl, rfl, rfl⟩
    split
    · exact fun _ => ⟨rfl, rfl, rfl⟩
    split
    · exact fun _ => ⟨rfl, rfl, rfl⟩
    split
    · exact fun _ => ⟨rfl, rfl, rfl⟩
    · intro hna
      exact absurd rfl (hna _)

/-- Witness for C5: concrete rejections — a running job, an invalid epoch
count, and an empty dataset directory. -/
theorem start_job_rejection_semantics_witness :
    (runningStatus.is_training = true
      ∧ start_model_training runningStatus fullFs 50 "run"
        = ⟨.rejected 400 "Training is already in progress. Please wait for it to complete.",
           runningStatus, false, false⟩)
    ∧ (idleStatus.is_training = false
      ∧ start_model_training idleStatus fullFs 501 "run"
        = ⟨.rejected 400 "Epochs must be between 1 and 500", idleStatus, false, false⟩)
    ∧ (emptyFs.image_files.length = 0
      ∧ start_model_training idleStatus emptyFs 50 "run"
        = ⟨.rejected 400 "Insufficient training data. Please add more labeled images.",
           idleStatus, false, false⟩) :=
  ⟨⟨rfl, (start_job_rejection_semantics runningStatus fullFs 50 "run").1 rfl⟩,
   ⟨rfl, (start_job_rejection_semantics idleStatus fullFs 501 "run").2.1 rfl
      (Or.inr (by norm_num))⟩,
   ⟨rfl, (start_job_rejection_semantics idleStatus emptyFs 50 "run").2.2.1 rfl
      (by norm_num) (by norm_num) rfl rfl (Or.inl rfl)⟩⟩

/-! ## Claim C6 -/

/-- Claim C6: when the background training call completes, the coordinator
locates the most-recently-modified train run directory under the runs root
and swaps in its `weights/best.pt` only if that file exists; when the
artifact is missing the job still finishes with the success progress
message, no swap attempted and no error raised; when the training call
raises, the job finishes with `"Training failed: "` plus the exception text
as the progress message and no swap is attempted; in every case the
function returns a plain status record (nothing propagates to the original
caller) with `is_training` reset. -/
theorem background_training_completion_behavior (st : TrainingStatus)
    (runs : RunsFS) (swapResult : Except String Unit) :
    (∀ e, run_training_in_background st (.error e) runs swapResult
        = ({ is_training := false, current_run := st.current_run,
             progress := "Training failed: " ++ e }, none))
    ∧ (∀ latest, runs.runs_dir_exists = true →
        latestRun (runs.dirs.filter (fun d => pyStartsWith d.name "train"))
          = some latest →
        latest.hasBestWeights = false →
        run_training_in_background st (.ok ()) runs swapResult
          = ({ is_training := false, current_run := st.current_run,
               progress := "Training completed successfully!" }, none))
    ∧ (∀ latest, runs.runs_dir_exists = true →
        latestRun (runs.dirs.filter (fun d => pyStartsWith d.name "train"))
          = some latest →
        latest.hasBestWeights = true →
        (run_training_in_background st (.ok ()) runs swapResult).2
          = some (latest.name ++ "/weights/best.pt"))
    ∧ (∀ tr, (run_training_in_background st tr runs swapResult).1.is_training
        = false) := by
  refine ⟨fun e => rfl, ?_, ?_, ?_⟩
  · intro latest hex hlatest hbest
    unfold run_training_in_background
    simp only [hex, if_true, hlatest, hbest, Bool.false_eq_true, if_false]
  · intro latest hex hlatest hbest
    unfold run_training_in_background
    simp only [hex, if_true, hlatest, hbest, if_true]
    rcases swapResult with _ | e <;> rfl
  · intro tr
    unfold run_training_in_background
    rcases tr with e | u
    · rfl
    dsimp only
    split
    · rfl
    rcases swapResult with _ | e <;> rfl

/-- Witness for C6: the concrete runs roots — the newest train directory
without a best artifact yields success with no swap; with a best artifact
the swap targets exactly that directory's weights file. -/
theorem background_training_completion_behavior_witness :
    (runsNoBest.runs_dir_exists = true
      ∧ latestRun (runsNoBest.dirs.filter (fun d => pyStartsWith d.name "train"))
          = some ⟨"train2", 7, false⟩)
    ∧ run_training_in_background idleStatus (.ok ()) runsNoBest (.ok ())
        = ({ is_training := false, current_run := none,
             progress := "Training completed successfully!" }, none)
    ∧ (run_training_in_background idleStatus (.ok ()) runsWithBest (.ok ())).2
        = some ("train2" ++ "/weights/best.pt")
    ∧ run_training_in_background idleStatus (.error "boom") runsNoBest (.ok ())
        = ({ is_training := false, current_run := none,
             progress := "Training failed: " ++ "boom" }, none) :=
  ⟨⟨rfl, by decide⟩,
   (background_training_completion_behavior idleStatus runsNoBest (.ok ())).2.1
     ⟨"train2", 7, false⟩ rfl (by decide) rfl,
   (background_training_completion_behavior idleStatus runsWithBest (.ok ())).2.2.1
     ⟨"train2", 7, true⟩ rfl (by decide) rfl,
   (background_training_completion_behavior idleStatus runsNoBest (.ok ())).1 "boom"⟩

/-! ## Claim C10 -/

/-- Claim C10: submitting one box `(x1, y1, x2, y2) = (100, 50, 200, 300)`
with label `"person"` on a 640x480 image writes the normalized YOLO record
`center_x = 0.234375`, `center_y = 0.364583`, `width = 0.15625`,
`height = 0.520833` (each within tolerance `1e-4`), and a newly assigned
class id for `"person"` equal to its position in the persisted class
list. -/
theorem labeling_record_normalization (classes : List String)
    (hnew : "person" ∉ classes) :
    (|(save_label_record 100 50 200 300 640 480).1 - 234375/1000000| ≤ 1/10000
     ∧ |(save_label_record 100 50 200 300 640 480).2.1 - 364583/1000000| ≤ 1/10000
     ∧ |(save_label_record 100 50 200 300 640 480).2.2.1 - 156250/1000000| ≤ 1/10000
     ∧ |(save_label_record 100 50 200 300 640 480).2.2.2 - 520833/1000000| ≤ 1/10000)
    ∧ (get_or_create_class_id classes "person").2 = classes.length
    ∧ (get_or_create_class_id classes "person").1 = classes ++ ["person"]
    ∧ ((get_or_create_class_id classes "person").1)[(get_or_create_class_id classes "person").2]?
        = some "person" := by
  have hrec : save_label_record 100 50 200 300 640 480
      = (234375/1000000, 364583/1000000, 156250/1000000, 520833/1000000) := by
    norm_num [save_label_record, round6, round_eq]
  have hid : get_or_create_class_id classes "person"
      = (classes ++ ["person"], classes.length) := by
    unfold get_or_create_class_id
    rw [if_neg hnew]
  refine ⟨?_, ?_, ?_, ?_⟩
  · rw [hrec]
    norm_num
  · rw [hid]
  · rw [hid]
  · rw [hid]
    exact List.getElem?_concat_length classes "person"

/-- Witness for C10: the persisted class list `["mouse"]`, to which
`"person"` is new; its assigned id is 1, its position in the updated
persisted list. -/
theorem labeling_record_normalization_witness :
    "person" ∉ ["mouse"]
    ∧ ((get_or_create_class_id ["mouse"] "person").2 = ["mouse"].length
       ∧ (get_or_create_class_id ["mouse"] "person").1 = ["mouse"] ++ ["person"]
       ∧ ((get_or_create_class_id ["mouse"] "person").1)[(get_or_create_class_id ["mouse"] "person").2]?
           = some "person") :=
  ⟨by decide, (labeling_record_normalization ["mouse"] (by decide)).2⟩

end Spec2Proof
